import Mathlib

/-!
Verification development for the sw-helpers repository: a shallow
embedding of the runtime caching strategy engine (strategies, request
wrapper, plugin pipeline, cache expiration, broadcast update,
cacheable-response filter) together with the build-time helpers
(generateSW input validation, file-details collection), and theorems
about the behaviour these components guarantee.

The sources under the repository provide the sw-lib `Strategies`
factory, `generateSW`, and the file-details helper directly; the
runtime-caching, cache-expiration, broadcast-cache-update and
cacheable-response packages are only imported there, so their behaviour
is modelled from the specification (each such definition is marked
`Modelled from the spec:`).
-/

namespace SwHelpers

/-- An HTTP response as the caching layer sees it: status code, headers
and an opaque body. -/
structure Response where
  status : Nat
  headers : List (String × String)
  body : String
deriving DecidableEq, Repr

/-- Look up a response header by name (first match wins). -/
def getHeader (r : Response) (name : String) : Option String :=
  match r.headers.find? (fun hv => hv.1 == name) with
  | some hv => some hv.2
  | none => none

/-- A named cache's contents: an association of request identities
(keys) to stored responses. -/
def Cache := List (String × Response)

/-- Look up a key in a cache (the Cache Store Adapter's `match`). -/
def cacheMatch : Cache → String → Option Response
  | [], _ => none
  | (k', r) :: rest, k => if k' = k then some r else cacheMatch rest k

/-- Write a key into a cache, overwriting any previous entry for that
key (the Cache Store Adapter's `put`, last-write-wins). -/
def storePut (c : Cache) (k : String) (r : Response) : Cache :=
  (k, r) :: c.filter (fun e => e.1 != k)

/-! ## Cache Expiration Manager (sw-cache-expiration)

Modelled from the spec: the sw-cache-expiration package is imported by
the sw-lib strategies module but its source is not part of this tree.
The spec describes a per-cache ordered record of (key, timestamp) pairs,
updated on every cacheDidUpdate and swept by eviction passes. -/

/-- Modelled from the spec: on every `cacheDidUpdate` the expiration
manager appends/moves the key to the end of its ordered record for that
cache (most-recently-written-last). -/
def recordUpdate (k : String) (now : Nat) (rec : List (String × Nat)) :
    List (String × Nat) :=
  rec.filter (fun e => e.1 != k) ++ [(k, now)]

/-- Modelled from the spec: an eviction pass removes entries older than
`maxAgeSeconds` first, then removes oldest entries until count is at
most `maxEntries`. Entries are ordered oldest-first; an entry with
timestamp `ts` is older than `maxAgeSeconds` when `now - ts` exceeds it. -/
def expirationPass (maxEntries maxAgeSeconds : Option Nat) (now : Nat)
    (rec : List (String × Nat)) : List (String × Nat) :=
  let afterAge := match maxAgeSeconds with
    | some age => rec.filter (fun e => decide (now ≤ e.2 + age))
    | none => rec
  match maxEntries with
  | some m => afterAge.drop (afterAge.length - m)
  | none => afterAge

/-! ## Plugin Pipeline and Request Wrapper (sw-runtime-caching)

Modelled from the spec: the sw-runtime-caching package (RequestWrapper
and the strategy classes) is imported by the sw-lib strategies module
but its source is not part of this tree. -/

/-- Modelled from the spec: a plugin is a capability object implementing
a subset of lifecycle hooks; `cacheWillUpdate` (when implemented) maps a
response to a boolean verdict, and a plugin may or may not implement
`cacheDidUpdate`. -/
structure Plugin where
  cacheWillUpdate : Option (Response → Bool)
  implementsCacheDidUpdate : Bool

/-- Modelled from the spec: `cachePut` runs all `cacheWillUpdate` hooks;
a plugin without the hook is a no-op (treated as accepting). -/
def runCacheWillUpdate (plugins : List Plugin) (r : Response) : Bool :=
  plugins.all (fun p =>
    match p.cacheWillUpdate with
    | some hook => hook r
    | none => true)

/-- The plugins that implement `cacheDidUpdate`, in registration order:
these are exactly the ones the Request Wrapper invokes after a committed
write. -/
def cacheDidUpdateInvoked (plugins : List Plugin) : List Plugin :=
  plugins.filter (fun p => p.implementsCacheDidUpdate)

/-- The plugins that implement `cacheWillUpdate`, in registration order. -/
def cacheWillUpdateInvoked (plugins : List Plugin) : List Plugin :=
  plugins.filter (fun p => p.cacheWillUpdate.isSome)

/-- Outcome of a `cachePut` call: whether the entry was stored, the
resulting cache contents, and the (oldResponse, newResponse, key)
`cacheDidUpdate` events fired — one per plugin implementing that hook,
in registration order. -/
structure CachePutResult where
  stored : Bool
  cache : Cache
  didUpdateEvents : List (Option Response × Response × String)

/-- Modelled from the spec: `cachePut(key, response)` runs all
`cacheWillUpdate` hooks; if any hook returns false, the write is skipped
and the call reports "not stored" rather than failing. Otherwise it
reads the prior entry (if any), writes the new one, then invokes
`cacheDidUpdate` hooks with (old, new, key) — the sole trigger point for
the Broadcast Update Manager and Expiration Manager bookkeeping. -/
def cachePut (plugins : List Plugin) (c : Cache) (k : String) (r : Response) :
    CachePutResult :=
  if runCacheWillUpdate plugins r then
    let old := cacheMatch c k
    { stored := true
      cache := storePut c k r
      didUpdateEvents := (cacheDidUpdateInvoked plugins).map (fun _ => (old, r, k)) }
  else
    { stored := false, cache := c, didUpdateEvents := [] }

/-! ## Broadcast Update Manager (sw-broadcast-cache-update) -/

/-- A broadcast message announcing that a cached URL's content changed. -/
structure BroadcastMessage where
  cacheName : String
  url : String
  source : String
deriving DecidableEq, Repr

/-- Configuration of the Broadcast Update Manager: the cache name to
report, the set of headers compared between old and new responses, and
whether the comparison is configured to always fire. -/
structure BCUConfig where
  cacheName : String
  headersToCheck : List String
  alwaysNotify : Bool

/-- Modelled from the spec: the configured header comparison detects a
difference when some configured header differs between the old and new
responses, or when comparison is configured to always fire. -/
def responsesDiffer (cfg : BCUConfig) (o n : Response) : Bool :=
  cfg.alwaysNotify || cfg.headersToCheck.any (fun h => getHeader o h != getHeader n h)

/-- Modelled from the spec: on `cacheDidUpdate(old, new, key)`, if `old`
is absent no message is emitted (first write); if `old` is present and
the configured comparison detects a difference, exactly one Broadcast
Message (cacheName, url, source "cache-update") is produced. -/
def broadcastOnUpdate (cfg : BCUConfig) (old : Option Response) (nw : Response)
    (url : String) : List BroadcastMessage :=
  match old with
  | none => []
  | some o =>
      if responsesDiffer cfg o nw then
        [{ cacheName := cfg.cacheName, url := url, source := "cache-update" }]
      else
        []

/-- All broadcast messages produced by a list of `cacheDidUpdate` events. -/
def broadcastMessages (cfg : BCUConfig)
    (events : List (Option Response × Response × String)) :
    List BroadcastMessage :=
  events.flatMap (fun ev => broadcastOnUpdate cfg ev.1 ev.2.1 ev.2.2)

/-- The expiration record after the Expiration Manager has processed a
list of `cacheDidUpdate` events (append/move each written key to the end). -/
def expirationRecordAfter (now : Nat) (rec : List (String × Nat))
    (events : List (Option Response × Response × String)) :
    List (String × Nat) :=
  events.foldl (fun acc ev => recordUpdate ev.2.2 now acc) rec

/-! ## Cacheable-Response Filter (sw-cacheable-response) -/

/-- Configuration of the Cacheable-Response Filter: a set of acceptable
status codes and required response headers (name/value pairs). -/
structure CacheableResponseConfig where
  statuses : List Nat
  headers : List (String × String)

/-- The default configuration: acceptable statuses default to the
singleton 200, with no required headers. -/
def defaultCacheableResponseConfig : CacheableResponseConfig :=
  { statuses := [200], headers := [] }

/-- Modelled from the spec: the Cacheable-Response Filter's
`cacheWillUpdate` hook returns false (vetoes the write) when the
response's status is not in the accepted set or a required header is
absent/mismatched. -/
def cacheableResponseWillUpdate (cfg : CacheableResponseConfig) (r : Response) :
    Bool :=
  cfg.statuses.contains r.status &&
    cfg.headers.all (fun hv => getHeader r hv.1 == some hv.2)

/-! ## Strategies (sw-runtime-caching) -/

/-- Failure modes a strategy invocation can surface. -/
inductive StrategyError where
  | networkFailure
  | noCacheMatch
  | combined
deriving DecidableEq, Repr

/-- Modelled from the spec: NetworkFirst does `fetch()`; on success,
`cachePut()` (best-effort) then returns the network response; on network
failure it falls back to `match()`; if that is also absent it surfaces
the combined NetworkFailure/NoCacheMatch error. The network leg's
outcome is `some response` on success and `none` on NetworkFailure. -/
def networkFirst (plugins : List Plugin) (c : Cache) (k : String)
    (net : Option Response) : Except StrategyError Response × Cache :=
  match net with
  | some r => (Except.ok r, (cachePut plugins c k r).cache)
  | none =>
      match cacheMatch c k with
      | some cached => (Except.ok cached, c)
      | none => (Except.error StrategyError.combined, c)

/-- Modelled from the spec: StaleWhileRevalidate races `match()` and
`fetch()`. With a cached entry, the cached response is returned
immediately without waiting for the network leg, and the network leg,
once it resolves, always completes `cachePut()` in the background; with
no cached entry the network result serves as the response. The pair
returned is (caller-visible response, cache contents once the background
write completes). -/
def staleWhileRevalidate (plugins : List Plugin) (c : Cache) (k : String)
    (net : Option Response) : Except StrategyError Response × Cache :=
  match cacheMatch c k with
  | some cached =>
      let final := match net with
        | some r => (cachePut plugins c k r).cache
        | none => c
      (Except.ok cached, final)
  | none =>
      match net with
      | some r => (Except.ok r, (cachePut plugins c k r).cache)
      | none => (Except.error StrategyError.networkFailure, c)

end SwHelpers

namespace SwHelpers

/-- Writing a key then matching it returns the written response. -/
theorem cacheMatch_storePut (c : Cache) (k : String) (r : Response) :
    cacheMatch (storePut c k r) k = some r := by
  simp [cacheMatch, storePut]

/-- Claim C2: for a cache configured with both `maxEntries` and
`maxAgeSeconds`, after the eviction pass that follows a successful
cachePut (which first appends/moves the written key to the end of the
expiration record), the record's length is at most `maxEntries` and no
remaining entry is older than `maxAgeSeconds`. -/
theorem expirationPass_bounds (m a now : Nat) (rec : List (String × Nat))
    (k : String) (e : String × Nat)
    (he : e ∈ expirationPass (some m) (some a) now (recordUpdate k now rec)) :
    (expirationPass (some m) (some a) now (recordUpdate k now rec)).length ≤ m ∧
      now ≤ e.2 + a := by
  constructor
  · simp only [expirationPass, List.length_drop]
    omega
  · have hmem : e ∈ (recordUpdate k now rec).filter
        (fun e => decide (now ≤ e.2 + a)) := by
      simpa only [expirationPass] using List.drop_subset _ _ he
    have := (List.mem_filter.mp hmem).2
    exact of_decide_eq_true this

/-- Concrete instance of `expirationPass_bounds`: record [("a",5),("b",15)],
key "c" written at time 20, maxEntries 1, maxAgeSeconds 10. -/
theorem expirationPass_bounds_witness :
    (expirationPass (some 1) (some 10) 20
        (recordUpdate "c" 20 [("a", 5), ("b", 15)])).length ≤ 1 ∧
      20 ≤ ("c", 20).2 + 10 :=
  expirationPass_bounds 1 10 20 [("a", 5), ("b", 15)] "c" ("c", 20) (by decide)

/-- If some plugin's `cacheWillUpdate` hook rejects the response, the
combined verdict is false. -/
theorem runCacheWillUpdate_veto (plugins : List Plugin) (r : Response)
    (p : Plugin) (hook : Response → Bool) (hp : p ∈ plugins)
    (hhook : p.cacheWillUpdate = some hook) (hfalse : hook r = false) :
    runCacheWillUpdate plugins r = false := by
  unfold runCacheWillUpdate
  cases hall : plugins.all (fun p =>
      match p.cacheWillUpdate with
      | some hook => hook r
      | none => true) with
  | false => rfl
  | true =>
      exfalso
      have := List.all_eq_true.mp hall p hp
      rw [hhook] at this
      rw [show (match some hook with
          | some hook => hook r
          | none => true) = hook r from rfl, hfalse] at this
      exact Bool.false_ne_true this

/-- Claim C3: if some `cacheWillUpdate` hook returns false for the
response, `cachePut` writes nothing: the call reports "not stored", the
cache is unchanged, no `cacheDidUpdate` event fires, and consequently no
broadcast message is produced and the expiration record is untouched. -/
theorem cachePut_veto (plugins : List Plugin) (c : Cache) (k : String)
    (r : Response) (p : Plugin) (hook : Response → Bool) (hp : p ∈ plugins)
    (hhook : p.cacheWillUpdate = some hook) (hfalse : hook r = false) :
    (cachePut plugins c k r).stored = false ∧
      (cachePut plugins c k r).cache = c ∧
      (cachePut plugins c k r).didUpdateEvents = [] ∧
      (∀ cfg, broadcastMessages cfg (cachePut plugins c k r).didUpdateEvents = []) ∧
      (∀ now rec, expirationRecordAfter now rec
        (cachePut plugins c k r).didUpdateEvents = rec) := by
  have hveto := runCacheWillUpdate_veto plugins r p hook hp hhook hfalse
  simp [cachePut, hveto, broadcastMessages, expirationRecordAfter]

/-- A plugin whose `cacheWillUpdate` hook vetoes every response. -/
def vetoPlugin : Plugin :=
  { cacheWillUpdate := some (fun _ => false), implementsCacheDidUpdate := true }

/-- A plain 200 response used in concrete instances. -/
def respOk : Response :=
  { status := 200, headers := [("ETag", "a")], body := "hello" }

/-- A second 200 response, differing from `respOk` in its ETag header. -/
def respNew : Response :=
  { status := 200, headers := [("ETag", "b")], body := "world" }

/-- A concrete Broadcast Update Manager configuration comparing the ETag
header for the cache named "pages-v1". -/
def bcuPages : BCUConfig :=
  { cacheName := "pages-v1", headersToCheck := ["ETag"], alwaysNotify := false }

/-- Concrete instance of `cachePut_veto`: a vetoing plugin leaves the
cache, broadcast and expiration state untouched. -/
theorem cachePut_veto_witness :
    (cachePut [vetoPlugin] [] "k" respOk).stored = false ∧
      (cachePut [vetoPlugin] [] "k" respOk).cache = [] ∧
      (cachePut [vetoPlugin] [] "k" respOk).didUpdateEvents = [] ∧
      broadcastMessages bcuPages (cachePut [vetoPlugin] [] "k" respOk).didUpdateEvents = [] ∧
      expirationRecordAfter 5 [("a", 1)]
        (cachePut [vetoPlugin] [] "k" respOk).didUpdateEvents = [("a", 1)] := by
  have h := cachePut_veto [vetoPlugin] [] "k" respOk vetoPlugin (fun _ => false)
    (List.mem_singleton.mpr rfl) rfl rfl
  exact ⟨h.1, h.2.1, h.2.2.1, h.2.2.2.1 bcuPages, h.2.2.2.2 5 [("a", 1)]⟩

/-- Claim C1: with a pre-existing cache entry, StaleWhileRevalidate
returns the cached response whatever the network leg does (so the caller
never waits on it), and when the network leg succeeds and no plugin
vetoes the write, the background `cachePut` completes so that a
subsequent `match()` on the cache returns the new network response. -/
theorem staleWhileRevalidate_stale_then_revalidate (plugins : List Plugin)
    (c : Cache) (k : String) (cached r : Response)
    (hhit : cacheMatch c k = some cached)
    (haccept : runCacheWillUpdate plugins r = true) :
    (staleWhileRevalidate plugins c k (some r)).1 = Except.ok cached ∧
      (∀ net, (staleWhileRevalidate plugins c k net).1 = Except.ok cached) ∧
      cacheMatch (staleWhileRevalidate plugins c k (some r)).2 k = some r := by
  refine ⟨?_, ?_, ?_⟩
  · simp [staleWhileRevalidate, hhit]
  · intro net
    cases net <;> simp [staleWhileRevalidate, hhit]
  · simp [staleWhileRevalidate, hhit, cachePut, haccept, cacheMatch_storePut]

/-- Concrete instance of `staleWhileRevalidate_stale_then_revalidate`:
a cache holding `respOk` under "u", a network leg producing `respNew`,
and no plugins. -/
theorem staleWhileRevalidate_witness :
    (staleWhileRevalidate [] [("u", respOk)] "u" (some respNew)).1 = Except.ok respOk ∧
      (staleWhileRevalidate [] [("u", respOk)] "u" none).1 = Except.ok respOk ∧
      cacheMatch (staleWhileRevalidate [] [("u", respOk)] "u" (some respNew)).2 "u" =
        some respNew := by
  have h := staleWhileRevalidate_stale_then_revalidate [] [("u", respOk)] "u"
    respOk respNew (by decide) rfl
  exact ⟨h.1, h.2.1 none, h.2.2⟩

/-- Claim C4: NetworkFirst with a failing network and an existing cache
entry returns the cached entry, and the combined
NetworkFailure/NoCacheMatch error is surfaced exactly when both the
network attempt and the cache fallback fail. -/
theorem networkFirst_fallback (plugins : List Plugin) (c : Cache) (k : String)
    (net : Option Response) :
    (∀ resp, net = none → cacheMatch c k = some resp →
        (networkFirst plugins c k net).1 = Except.ok resp) ∧
      ((networkFirst plugins c k net).1 = Except.error StrategyError.combined ↔
        net = none ∧ cacheMatch c k = none) := by
  cases net with
  | some r => simp [networkFirst]
  | none =>
      cases hm : cacheMatch c k with
      | some cached => simp [networkFirst, hm]
      | none => simp [networkFirst, hm]

/-- Concrete instance of `networkFirst_fallback`: a failing network with
a cache entry returns the entry; with an empty cache the combined error
surfaces. -/
theorem networkFirst_fallback_witness :
    (networkFirst [] [("u", respOk)] "u" none).1 = Except.ok respOk ∧
      (networkFirst [] [] "u" none).1 = Except.error StrategyError.combined := by
  refine ⟨(networkFirst_fallback [] [("u", respOk)] "u" none).1 respOk rfl (by decide), ?_⟩
  exact (networkFirst_fallback [] [] "u" none).2.mpr ⟨rfl, rfl⟩

/-- Claim C5: the Broadcast Update Manager emits no message when the old
response is absent, and emits exactly one message
(cacheName, url, source "cache-update") when the old response is present
and the configured header comparison detects a difference. -/
theorem broadcastOnUpdate_messages (cfg : BCUConfig) (nw : Response)
    (url : String) :
    broadcastOnUpdate cfg none nw url = [] ∧
      (∀ o, responsesDiffer cfg o nw = true →
        broadcastOnUpdate cfg (some o) nw url =
          [{ cacheName := cfg.cacheName, url := url, source := "cache-update" }]) := by
  refine ⟨rfl, ?_⟩
  intro o hdiff
  simp [broadcastOnUpdate, hdiff]

/-- Concrete instance of `broadcastOnUpdate_messages`: an ETag change on
"/index.html" in cache "pages-v1" produces exactly one message. -/
theorem broadcastOnUpdate_messages_witness :
    broadcastOnUpdate bcuPages none respNew "/index.html" = [] ∧
      broadcastOnUpdate bcuPages (some respOk) respNew "/index.html" =
        [{ cacheName := "pages-v1", url := "/index.html", source := "cache-update" }] := by
  have h := broadcastOnUpdate_messages bcuPages respNew "/index.html"
  exact ⟨h.1, h.2 respOk (by decide)⟩

/-- Claim C7: the Cacheable-Response Filter's `cacheWillUpdate` hook
returns false exactly when the response's status is not in the accepted
set or some required header is absent or mismatched; with the default
configuration it returns false exactly when the status is not 200. -/
theorem cacheableResponseWillUpdate_false_iff (cfg : CacheableResponseConfig)
    (r : Response) :
    (cacheableResponseWillUpdate cfg r = false ↔
        r.status ∉ cfg.statuses ∨
          ∃ hv ∈ cfg.headers, getHeader r hv.1 ≠ some hv.2) ∧
      (cacheableResponseWillUpdate defaultCacheableResponseConfig r = false ↔
        r.status ≠ 200) := by
  constructor
  · rw [← Bool.not_eq_true]
    simp [cacheableResponseWillUpdate, List.all_eq_true, not_and_or, not_forall,
      imp_iff_not_or]
  · simp [cacheableResponseWillUpdate, defaultCacheableResponseConfig, eq_comm]

/-- A 404 response used in concrete instances. -/
def respMissing : Response :=
  { status := 404, headers := [], body := "" }

/-- Concrete instance of `cacheableResponseWillUpdate_false_iff`: under
the default configuration a 404 response is vetoed. -/
theorem cacheableResponseWillUpdate_false_iff_witness :
    cacheableResponseWillUpdate defaultCacheableResponseConfig respMissing = false :=
  (cacheableResponseWillUpdate_false_iff defaultCacheableResponseConfig
    respMissing).2.mpr (by decide)

end SwHelpers

namespace SwHelpers

/-! ## The sw-lib Strategies factory (packages/sw-lib/src/lib/strategies.js) -/

/-- Configuration parameters accepted by the cache expiration plugin. -/
structure ExpirationConfig where
  maxEntries : Option Nat
  maxAgeSeconds : Option Nat

/-- Modelled from the spec: the CacheExpirationPlugin constructed by the
factory implements `cacheDidUpdate` bookkeeping and no `cacheWillUpdate`
hook. Its source (sw-cache-expiration) is not part of this tree. -/
def CacheExpirationPlugin (_cfg : ExpirationConfig) : Plugin :=
  { cacheWillUpdate := none, implementsCacheDidUpdate := true }

/-- Modelled from the spec: the BroadcastCacheUpdatePlugin constructed
by the factory implements `cacheDidUpdate` and no `cacheWillUpdate`
hook. Its source (sw-broadcast-cache-update) is not part of this tree. -/
def BroadcastCacheUpdatePlugin (_cfg : BCUConfig) : Plugin :=
  { cacheWillUpdate := none, implementsCacheDidUpdate := true }

/-- Modelled from the spec: the CacheableResponsePlugin constructed by
the factory implements the `cacheWillUpdate` veto of the
Cacheable-Response Filter. Its source (sw-cacheable-response) is not
part of this tree. -/
def CacheableResponsePlugin (cfg : CacheableResponseConfig) : Plugin :=
  { cacheWillUpdate := some (cacheableResponseWillUpdate cfg)
    implementsCacheDidUpdate := false }

/-- The options object accepted by each strategy factory method:
an optional cache name, the three recognised built-in plugin parameter
blocks, and optional custom plugins. -/
structure StrategyOptions where
  cacheName : Option String
  cacheExpiration : Option ExpirationConfig
  broadcastCacheUpdate : Option BCUConfig
  cacheableResponse : Option CacheableResponseConfig
  plugins : Option (List Plugin)

/-- The RequestWrapper configuration the factory builds. -/
structure WrapperOptions where
  plugins : List Plugin
  cacheId : Option String
  cacheName : Option String

/-- The strategy classes the factory can instantiate. -/
inductive HandlerKind where
  | cacheFirst
  | cacheOnly
  | networkFirst
  | networkOnly
  | staleWhileRevalidate
deriving DecidableEq, Repr

/-- A configured handler: a strategy class together with the
RequestWrapper it was constructed with. -/
structure Handler where
  kind : HandlerKind
  requestWrapper : WrapperOptions

/-- The Strategies factory: its constructor records the shared cacheId
applied to the runtime strategies' cache names. -/
structure Strategies where
  cacheId : Option String

/-- `Strategies._getCachingMechanism`: builds the RequestWrapper options
with the shared cacheId, the optional cacheName (set only when truthy),
the recognised built-in plugins in the fixed key order (cacheExpiration,
broadcastCacheUpdate, cacheableResponse), and then the caller's custom
plugins appended in the order given. -/
def Strategies.getCachingMechanism (s : Strategies) (options : StrategyOptions) :
    WrapperOptions :=
  let builtin :=
    (match options.cacheExpiration with
      | some cfg => [CacheExpirationPlugin cfg]
      | none => []) ++
    (match options.broadcastCacheUpdate with
      | some cfg => [BroadcastCacheUpdatePlugin cfg]
      | none => []) ++
    (match options.cacheableResponse with
      | some cfg => [CacheableResponsePlugin cfg]
      | none => [])
  { plugins := builtin ++ options.plugins.getD []
    cacheId := s.cacheId
    cacheName := match options.cacheName with
      | some n => if n != "" then some n else none
      | none => none }

/-- Each factory method instantiates its handler class with a
RequestWrapper built by `getCachingMechanism`. -/
def Strategies.mkHandler (s : Strategies) (kind : HandlerKind)
    (options : StrategyOptions) : Handler :=
  { kind := kind, requestWrapper := s.getCachingMechanism options }

/-- `Strategies.cacheFirst`. -/
def Strategies.cacheFirst (s : Strategies) (options : StrategyOptions) : Handler :=
  s.mkHandler HandlerKind.cacheFirst options

/-- `Strategies.cacheOnly`. -/
def Strategies.cacheOnly (s : Strategies) (options : StrategyOptions) : Handler :=
  s.mkHandler HandlerKind.cacheOnly options

/-- `Strategies.networkFirst`. -/
def Strategies.networkFirst (s : Strategies) (options : StrategyOptions) : Handler :=
  s.mkHandler HandlerKind.networkFirst options

/-- `Strategies.networkOnly`. -/
def Strategies.networkOnly (s : Strategies) (options : StrategyOptions) : Handler :=
  s.mkHandler HandlerKind.networkOnly options

/-- `Strategies.staleWhileRevalidate`. -/
def Strategies.staleWhileRevalidateHandler (s : Strategies)
    (options : StrategyOptions) : Handler :=
  s.mkHandler HandlerKind.staleWhileRevalidate options

/-- Modelled from the spec: the RequestWrapper (sw-runtime-caching, not
part of this tree) addresses a named cache optionally suffixed by the
shared cache scope identifier. -/
def resolveCacheName (cacheName : String) (cacheId : Option String) : String :=
  match cacheId with
  | some cid => cacheName ++ cid
  | none => cacheName

/-- Claim C6: the custom plugin sequence given to a strategy factory
method is preserved exactly, in order, as the tail of the RequestWrapper
configuration's plugin list, and the plugins a Request Wrapper call
invokes for each hook are a subsequence of the registered plugins in
registration order. -/
theorem strategies_plugin_order (s : Strategies) (kind : HandlerKind)
    (opts : StrategyOptions) (given : List Plugin)
    (h : opts.plugins = some given) :
    given <:+ (s.mkHandler kind opts).requestWrapper.plugins ∧
      (∀ ps : List Plugin,
        List.Sublist (cacheWillUpdateInvoked ps) ps ∧
          List.Sublist (cacheDidUpdateInvoked ps) ps) := by
  constructor
  · show given <:+ (s.getCachingMechanism opts).plugins
    simp only [Strategies.getCachingMechanism, h, Option.getD_some]
    exact ⟨_, rfl⟩
  · intro ps
    exact ⟨List.filter_sublist ps, List.filter_sublist ps⟩

/-- A custom plugin with no hooks, used in concrete instances. -/
def inertPlugin : Plugin :=
  { cacheWillUpdate := none, implementsCacheDidUpdate := false }

/-- Concrete strategy options used in concrete instances: an expiration
block plus one custom plugin. -/
def sampleOptions : StrategyOptions :=
  { cacheName := none
    cacheExpiration := some { maxEntries := some 5, maxAgeSeconds := none }
    broadcastCacheUpdate := none
    cacheableResponse := none
    plugins := some [inertPlugin] }

/-- Concrete instance of `strategies_plugin_order`. -/
theorem strategies_plugin_order_witness :
    [inertPlugin] <:+
        ((Strategies.mk (some "scope")).mkHandler HandlerKind.cacheFirst
          sampleOptions).requestWrapper.plugins ∧
      List.Sublist (cacheWillUpdateInvoked [inertPlugin]) [inertPlugin] ∧
      List.Sublist (cacheDidUpdateInvoked [inertPlugin]) [inertPlugin] := by
  have h := strategies_plugin_order (Strategies.mk (some "scope"))
    HandlerKind.cacheFirst sampleOptions [inertPlugin] rfl
  exact ⟨h.1, (h.2 [inertPlugin]).1, (h.2 [inertPlugin]).2⟩

/-- Claim C8: every handler the factory produces carries the factory's
cacheId unchanged in its RequestWrapper configuration, and the named
cache the wrapper addresses is the configured cache name suffixed by
that shared identifier. -/
theorem strategies_cacheId_propagated (s : Strategies) (kind : HandlerKind)
    (opts : StrategyOptions) :
    (s.mkHandler kind opts).requestWrapper.cacheId = s.cacheId ∧
      (∀ name cid, ∃ base, resolveCacheName name (some cid) = base ++ cid) :=
  ⟨rfl, fun name _cid => ⟨name, rfl⟩⟩

/-- Concrete instance of `strategies_cacheId_propagated`: a factory
built with cacheId "scope" configures its handlers' wrappers with it. -/
theorem strategies_cacheId_propagated_witness :
    ((Strategies.mk (some "scope")).mkHandler HandlerKind.networkFirst
        sampleOptions).requestWrapper.cacheId = some "scope" :=
  (strategies_cacheId_propagated (Strategies.mk (some "scope"))
    HandlerKind.networkFirst sampleOptions).1

end SwHelpers

namespace SwHelpers

/-! ## generateSW input validation (packages/sw-build/src/lib/generate-sw.js) -/

/-- A JavaScript value as `generateSW` inspects it. -/
inductive JVal where
  | str (s : String)
  | num (n : Int)
  | boolean (b : Bool)
  | null
  | undefined
  | arr (elems : List JVal)
  | obj (fields : List (String × JVal))

/-- Property access `input.name`: an absent field reads as undefined. -/
def getField (input : JVal) (name : String) : JVal :=
  match input with
  | .obj fields =>
      match fields.find? (fun f => f.1 == name) with
      | some f => f.2
      | none => .undefined
  | _ => .undefined

/-- JavaScript truthiness. -/
def truthy : JVal → Bool
  | .str s => s != ""
  | .num n => n != 0
  | .boolean b => b
  | .null => false
  | .undefined => false
  | .arr _ => true
  | .obj _ => true

/-- `typeof v === 'object'` (true for null, arrays and objects). -/
def typeofObject : JVal → Bool
  | .null => true
  | .arr _ => true
  | .obj _ => true
  | _ => false

/-- `Array.isArray(v)`. -/
def isArray : JVal → Bool
  | .arr _ => true
  | _ => false

/-- `typeof v === 'string' && v.length > 0`. -/
def isNonEmptyString : JVal → Bool
  | .str s => s != ""
  | _ => false

/-- The string payload of a JS value, for values known to be strings. -/
def asString : JVal → String
  | .str s => s
  | _ => ""

/-- `path.dirname`: the path with its last component removed, "." when
there is no separator. -/
def dirname (p : String) : String :=
  let cs := p.toList
  if cs.contains '/' then
    String.mk ((cs.reverse.dropWhile (fun c => c != '/')).drop 1).reverse
  else "."

/-- Filesystem actions `generateSW` performs once validation has passed:
copying the sw-lib file next to the destination, globbing the manifest
files, and writing the service worker. -/
inductive FsEffect where
  | copySWLib (destDirectory : String)
  | globFiles (globDirectory : String)
  | writeServiceWorker (dest : String)
deriving DecidableEq, Repr

/-- `generateSW`: validates its input object and only then performs
filesystem work. A rejection is an `Except.error` carrying the error
key; success returns the filesystem effects performed in order. -/
def generateSW (input : JVal) : Except String (List FsEffect) :=
  if !truthy input || !typeofObject input || isArray input then
    Except.error "invalid-generate-sw-input"
  else if truthy (getField input "globIgnores") &&
      !isArray (getField input "globIgnores") then
    Except.error "invalid-glob-ignores"
  else if !isNonEmptyString (getField input "globDirectory") then
    Except.error "invalid-glob-directory"
  else if !isNonEmptyString (getField input "dest") then
    Except.error "invalid-dest"
  else
    let dest := asString (getField input "dest")
    let globDirectory := asString (getField input "globDirectory")
    Except.ok [FsEffect.copySWLib (dirname dest),
      FsEffect.globFiles globDirectory,
      FsEffect.writeServiceWorker dest]

end SwHelpers

namespace SwHelpers

/-- Claim C9 (amended): generateSW rejects — performing no filesystem
effect — a missing/non-object/array input with the input error, then a
truthy non-array globIgnores with the glob-ignores error, then a
globDirectory that is not a non-empty string, then a dest that is not a
non-empty string, each with its own error key, in that order of
precedence. -/
theorem generateSW_validation (input : JVal) :
    ((!truthy input || !typeofObject input || isArray input) = true →
        generateSW input = Except.error "invalid-generate-sw-input") ∧
      ((!truthy input || !typeofObject input || isArray input) = false →
        (truthy (getField input "globIgnores") &&
          !isArray (getField input "globIgnores")) = true →
        generateSW input = Except.error "invalid-glob-ignores") ∧
      ((!truthy input || !typeofObject input || isArray input) = false →
        (truthy (getField input "globIgnores") &&
          !isArray (getField input "globIgnores")) = false →
        isNonEmptyString (getField input "globDirectory") = false →
        generateSW input = Except.error "invalid-glob-directory") ∧
      ((!truthy input || !typeofObject input || isArray input) = false →
        (truthy (getField input "globIgnores") &&
          !isArray (getField input "globIgnores")) = false →
        isNonEmptyString (getField input "globDirectory") = true →
        isNonEmptyString (getField input "dest") = false →
        generateSW input = Except.error "invalid-dest") := by
  refine ⟨fun h1 => ?_, fun h1 h2 => ?_, fun h1 h2 h3 => ?_, fun h1 h2 h3 h4 => ?_⟩
  · simp [generateSW, h1]
  · simp [generateSW, h1, h2]
  · simp [generateSW, h1, h2, h3]
  · simp [generateSW, h1, h2, h3, h4]

/-- Concrete instances of `generateSW_validation`, one per validation
branch. -/
theorem generateSW_validation_witness :
    generateSW (JVal.num 3) = Except.error "invalid-generate-sw-input" ∧
      generateSW (JVal.obj [("globIgnores", JVal.num 1),
          ("globDirectory", JVal.str "d"), ("dest", JVal.str "s")]) =
        Except.error "invalid-glob-ignores" ∧
      generateSW (JVal.obj [("dest", JVal.str "s")]) =
        Except.error "invalid-glob-directory" ∧
      generateSW (JVal.obj [("globDirectory", JVal.str "d")]) =
        Except.error "invalid-dest" :=
  ⟨(generateSW_validation (JVal.num 3)).1 rfl,
    (generateSW_validation _).2.1 rfl rfl,
    (generateSW_validation _).2.2.1 rfl rfl rfl,
    (generateSW_validation _).2.2.2 rfl rfl rfl rfl⟩

/-- An input whose globIgnores field is present and not an array, yet
falsy (the empty string), with valid globDirectory and dest. -/
def falsyGlobIgnoresInput : JVal :=
  JVal.obj [("globIgnores", JVal.str ""), ("globDirectory", JVal.str "build"),
    ("dest", JVal.str "sw.js")]

/-- Claim C9 counterexample: an input whose globIgnores is a non-array
value (the empty string) is not rejected — generateSW proceeds to its
filesystem work — contradicting the claim that every non-array
globIgnores yields a rejected promise. -/
theorem generateSW_falsy_globIgnores_not_rejected :
    getField falsyGlobIgnoresInput "globIgnores" = JVal.str "" ∧
      isArray (getField falsyGlobIgnoresInput "globIgnores") = false ∧
      generateSW falsyGlobIgnoresInput =
        Except.ok [FsEffect.copySWLib ".", FsEffect.globFiles "build",
          FsEffect.writeServiceWorker "sw.js"] :=
  ⟨rfl, rfl, rfl⟩

end SwHelpers

namespace SwHelpers

/-! ## File details helper (src/unnamed/part_000) -/

/-- `path.join(globDirectory, file)`. -/
def pathJoin (d f : String) : String := d ++ "/" ++ f

/-- `path.relative(globDirectory, fullPath)`: strips the directory
part when the path lies under it. -/
def pathRelative (d p : String) : String :=
  let pre := (d ++ "/").toList
  if pre.isPrefixOf p.toList then String.mk (p.toList.drop pre.length) else p

/-- One entry of the build manifest: a file path relative to the glob
directory, its content hash, and its size. -/
structure FileDetail where
  file : String
  hash : String
  size : Nat
deriving DecidableEq, Repr

/-- `getFileDetails`: globs files under `globDirectory` (the glob result
is passed in, erroring like the source's try/catch does), looks up each
file's size and hash, and keeps only the files whose size lookup did not
return null. -/
def getFileDetails (globResult : Except String (List String))
    (getFileSize : String → Option Nat) (getFileHash : String → String)
    (globDirectory : String) : Except String (List FileDetail) :=
  match globResult with
  | .error msg => .error ("unable-to-glob-files " ++ msg)
  | .ok globbedFiles =>
      let fileDetails := globbedFiles.map (fun file =>
        let fullPath := pathJoin globDirectory file
        match getFileSize fullPath with
        | none => none
        | some fileSize => some
            { file := pathRelative globDirectory fullPath
              hash := getFileHash fullPath
              size := fileSize })
      .ok fileDetails.reduceOption

/-- Claim C10: the file-details helper returns exactly the entries whose
size lookup is non-null — as many entries as files with a non-null
size — and each entry carries the path relative to the glob directory
together with that file's hash and size; null-size files are silently
omitted. -/
theorem getFileDetails_spec (files : List String)
    (getFileSize : String → Option Nat) (getFileHash : String → String)
    (dir : String) :
    ∃ l, getFileDetails (Except.ok files) getFileSize getFileHash dir =
        Except.ok l ∧
      l.length = (files.filter
        (fun f => (getFileSize (pathJoin dir f)).isSome)).length ∧
      ∀ e ∈ l, ∃ f ∈ files, getFileSize (pathJoin dir f) = some e.size ∧
        e.hash = getFileHash (pathJoin dir f) ∧
        e.file = pathRelative dir (pathJoin dir f) := by
  refine ⟨_, rfl, ?_, ?_⟩
  · rw [List.reduceOption_length_eq, List.filter_map, List.length_map]
    congr 1
    refine List.filter_congr (fun f _ => ?_)
    cases hsz : getFileSize (pathJoin dir f) <;>
      simp [Function.comp, hsz]
  · intro e he
    rw [List.reduceOption_mem_iff] at he
    rcases List.mem_map.mp he with ⟨f, hf, heq⟩
    refine ⟨f, hf, ?_⟩
    cases hsz : getFileSize (pathJoin dir f) with
    | none =>
        simp only [hsz] at heq
        exact Option.noConfusion heq
    | some sz =>
        simp only [hsz] at heq
        injection heq with heq2
        subst heq2
        exact ⟨rfl, rfl, rfl⟩

/-- Concrete instance of `getFileDetails_spec`: two globbed files of
which only one has a non-null size. -/
theorem getFileDetails_spec_witness :
    ∃ l, getFileDetails (Except.ok ["a", "b"])
        (fun p => if p = "d/a" then some 3 else none) (fun _ => "h") "d" =
          Except.ok l ∧
      l.length = 1 := by
  obtain ⟨l, hl, hlen, _⟩ := getFileDetails_spec ["a", "b"]
    (fun p => if p = "d/a" then some 3 else none) (fun _ => "h") "d"
  refine ⟨l, hl, ?_⟩
  rw [hlen]
  decide

end SwHelpers
